import Mathlib

/-!
Verification of the donation-dashboard cleaning / geographic-join pipeline
(src/app.py) against its specification.

The pipeline in app.py is shallowly embedded:
* a raw CSV row is a RawRow of the six relevant string columns;
* load_data models the cleaning in app.py lines 21-48: parse the date
  (pandas to_datetime is an external library, modelled as a parameter
  of type String to Option GDate), strip and parse the amount, derive
  Year and YearMonth, map the state abbreviation through the us-package
  state table to a zero-padded FIPS string, dropping a row whenever a
  step fails (the dropna calls);
* the sidebar filter mask (lines 69-77) is df_filt;
* the state aggregate (lines 83-91) is state_totals, parameterized by
  the identifier set of the external topology (topo_ids, line 57).

Amounts are modelled as rationals: donation amounts in the examples are
exactly representable, and no claim depends on float rounding.
-/

/-- One raw CSV row, restricted to the columns the pipeline touches. -/
structure RawRow where
  state : String
  giftDate : String
  giftAmount : String
  college : String
  giftAllocation : String
  allocationSub : String
  deriving DecidableEq, Repr

/-- A parsed calendar date, the result of successful date parsing. -/
structure GDate where
  year : Int
  month : Nat
  day : Nat
  deriving DecidableEq, Repr

/-- A cleaned record: all rows of the dataframe returned by load_data. -/
structure CleanRow where
  state : String
  giftDate : GDate
  giftAmount : ℚ
  college : String
  giftAllocation : String
  allocationSub : String
  year : Int
  yearMonth : String
  state_fips : String
  deriving DecidableEq, Repr

/-- Python str.zfill(2) on a non-negative string: left-pad with zeros to
width two (app.py line 46 and line 57). -/
def zfill2 (s : String) : String :=
  if s.length ≥ 2 then s else String.mk (List.replicate (2 - s.length) '0' ++ s.data)

/-- The value of a list of decimal digit characters, most significant first. -/
def digitsVal (l : List Char) : Nat :=
  l.foldl (fun a c => 10 * a + (c.toNat - 48)) 0

/-- The character filter of app.py line 32: str.replace removing every
character that is not a digit, a hyphen, or a period. -/
def stripAmount (s : String) : String :=
  String.mk (s.data.filter (fun c => c.isDigit || c == '-' || c == '.'))

/-- Splits a character list at its first period, if any. -/
def breakAtDot : List Char → Option (List Char × List Char)
  | [] => none
  | c :: cs =>
    if c = '.' then some ([], cs)
    else (breakAtDot cs).map (fun p => (c :: p.1, p.2))

/-- Whether an (unsigned) character list is a well-formed decimal number
for the float parser underlying pd.to_numeric: only digits and periods,
at most one period, at least one digit. -/
def isNumBody (l : List Char) : Bool :=
  l.all (fun c => c.isDigit || c == '.') &&
  (l.count '.' ≤ 1 : Bool) &&
  l.any Char.isDigit

/-- The rational value of a well-formed unsigned decimal character list. -/
def numValue (l : List Char) : ℚ :=
  match breakAtDot l with
  | none => (digitsVal l : ℚ)
  | some p => (digitsVal p.1 : ℚ) + (digitsVal p.2 : ℚ) / ((10 : ℚ) ^ p.2.length)

/-- pd.to_numeric with errors=coerce (app.py lines 30-34), on strings over
the post-strip alphabet of digits, hyphens and periods: an optional single
leading minus sign followed by a well-formed decimal number; anything else
coerces to NaN, modelled as none. -/
def parseNum (s : String) : Option ℚ :=
  match s.data with
  | [] => none
  | c :: cs =>
    if c = '-' then
      if isNumBody cs then some (-(numValue cs)) else none
    else
      if isNumBody (c :: cs) then some (numValue (c :: cs)) else none

/-- The static StateReference table: the 50 entries of us.states.STATES
(app.py line 42), abbreviation paired with FIPS string. -/
def STATES : List (String × String) :=
  [("AL", "01"), ("AK", "02"), ("AZ", "04"), ("AR", "05"), ("CA", "06"),
   ("CO", "08"), ("CT", "09"), ("DE", "10"), ("FL", "12"), ("GA", "13"),
   ("HI", "15"), ("ID", "16"), ("IL", "17"), ("IN", "18"), ("IA", "19"),
   ("KS", "20"), ("KY", "21"), ("LA", "22"), ("ME", "23"), ("MD", "24"),
   ("MA", "25"), ("MI", "26"), ("MN", "27"), ("MS", "28"), ("MO", "29"),
   ("MT", "30"), ("NE", "31"), ("NV", "32"), ("NH", "33"), ("NJ", "34"),
   ("NM", "35"), ("NY", "36"), ("NC", "37"), ("ND", "38"), ("OH", "39"),
   ("OK", "40"), ("OR", "41"), ("PA", "42"), ("RI", "44"), ("SC", "45"),
   ("SD", "46"), ("TN", "47"), ("TX", "48"), ("UT", "49"), ("VT", "50"),
   ("VA", "51"), ("WA", "53"), ("WV", "54"), ("WI", "55"), ("WY", "56")]

/-- The state_id lookup of app.py line 42: abbreviation to FIPS string,
none when the abbreviation is not a recognized state (df Series.map
producing NaN). -/
def state_id (abbr : String) : Option String :=
  (STATES.find? (fun p => p.1 == abbr)).map Prod.snd

/-- The YearMonth column of app.py line 39: dt.to_period with monthly
frequency rendered as a string, i.e. year, hyphen, two-digit month. -/
def yearMonthStr (d : GDate) : String :=
  toString d.year ++ "-" ++ zfill2 (toString d.month)

/-- Cleaning of one row (app.py lines 26-46): parse the date (drop on
failure), strip and parse the amount (drop on failure), derive Year and
YearMonth, resolve the state abbreviation to a FIPS code (drop on
failure) and zero-pad it. -/
def cleanRow (pd : String → Option GDate) (r : RawRow) : Option CleanRow := do
  let d ← pd r.giftDate
  let amt ← parseNum (stripAmount r.giftAmount)
  let f ← state_id r.state
  pure { state := r.state, giftDate := d, giftAmount := amt,
         college := r.college, giftAllocation := r.giftAllocation,
         allocationSub := r.allocationSub, year := d.year,
         yearMonth := yearMonthStr d, state_fips := zfill2 f }

/-- load_data (app.py lines 21-48), parameterized by the external date
parser: the cleaned record set, in input order. -/
def load_data (pd : String → Option GDate) (rows : List RawRow) : List CleanRow :=
  rows.filterMap (cleanRow pd)

/-- The distinct values of the College column (app.py lines 63 and 71). -/
def colleges (df : List CleanRow) : List String :=
  (df.map (fun r => r.college)).dedup

/-- The distinct values of the Gift Allocation column (app.py lines 64 and 74). -/
def allocations (df : List CleanRow) : List String :=
  (df.map (fun r => r.giftAllocation)).dedup

/-- The sidebar mask of app.py lines 69-75 for one row: a selection is
applied only when it differs from the All sentinel and occurs among the
distinct values of its column in the current data. -/
def rowMask (df : List CleanRow) (colPick motPick : String) (r : CleanRow) : Bool :=
  (if colPick != "All" && (colleges df).contains colPick
   then r.college == colPick else true) &&
  (if motPick != "All" && (allocations df).contains motPick
   then r.giftAllocation == motPick else true)

/-- df_filt (app.py line 77): the rows of the cleaned set selected by the mask. -/
def df_filt (df : List CleanRow) (colPick motPick : String) : List CleanRow :=
  df.filter (rowMask df colPick motPick)

/-- topo_ids (app.py line 57): the identifier set of the external
topology, each feature id rendered as a string and zero-padded to two
characters; a Python set, modelled as a deduplicated list. -/
def topo_ids (featureIds : List String) : List String :=
  (featureIds.map zfill2).dedup

/-- The total_gift value the aggregate assigns to one FIPS code: the
groupby sum over matching filtered rows, or the fillna zero when none match. -/
def sumForFips (rows : List CleanRow) (fips : String) : ℚ :=
  (rows.filter (fun r => r.state_fips == fips)).foldl (fun a r => a + r.giftAmount) 0

/-- state_totals (app.py lines 83-91): groupby state_fips summing Gift
Amount, then left-merged onto the topology identifier list with missing
totals filled with 0 - observably, one row per topology identifier
carrying the sum of matching filtered rows. -/
def state_totals (topo : List String) (rows : List CleanRow) : List (String × ℚ) :=
  topo.map (fun f => (f, sumForFips rows f))

/-- Splits a character list on slashes. -/
def splitSlash : List Char → List (List Char)
  | [] => [[]]
  | c :: cs =>
    let r := splitSlash cs
    if c = '/' then [] :: r
    else
      match r with
      | [] => [[c]]
      | h :: t => (c :: h) :: t

/-- A concrete date parser standing in for the external library parser on
the example inputs: month slash day slash two-digit year, read as 20YY,
exactly how pandas reads the spec examples. -/
def demoParseDate (s : String) : Option GDate :=
  match splitSlash s.data with
  | [m, d, y] =>
    if m.all Char.isDigit && d.all Char.isDigit && y.all Char.isDigit &&
       decide (0 < m.length) && decide (0 < d.length) && decide (0 < y.length) then
      some { year := 2000 + (digitsVal y : Int),
             month := digitsVal m, day := digitsVal d }
    else none
  | _ => none

/-- The end-to-end example input of the spec: a resolvable California row
and a row whose state code ZZ does not resolve. -/
def exRows : List RawRow :=
  [{ state := "CA", giftDate := "1/2/20", giftAmount := "$100",
     college := "Engineering", giftAllocation := "General", allocationSub := "Fund" },
   { state := "ZZ", giftDate := "1/3/20", giftAmount := "200",
     college := "Arts", giftAllocation := "General", allocationSub := "Fund" }]

/-- The cleaned set produced from the example input. -/
def exClean : List CleanRow := load_data demoParseDate exRows

/-- A raw row with an amount that fails numeric coercion. -/
def badRow : RawRow :=
  { state := "CA", giftDate := "1/2/20", giftAmount := "N/A",
    college := "Engineering", giftAllocation := "General",
    allocationSub := "Fund" }

/-- The cleaned California example row; the amount is written as the cast
of a natural number so that the record is definitionally the one computed
by load_data. -/
def caClean : CleanRow :=
  { state := "CA", giftDate := { year := 2020, month := 1, day := 2 },
    giftAmount := ((100 : ℕ) : ℚ), college := "Engineering",
    giftAllocation := "General", allocationSub := "Fund", year := 2020,
    yearMonth := "2020-01", state_fips := "06" }

/-- The example input cleans to exactly the California row: the ZZ row is
dropped by the state_fips dropna. -/
theorem exClean_eq : exClean = [caClean] := rfl

/-- Membership in the cleaned set comes exactly from a raw row that
survives all three cleaning steps. -/
theorem mem_load_data (pd : String → Option GDate) (rows : List RawRow) (r : CleanRow) :
    r ∈ load_data pd rows ↔ ∃ raw ∈ rows, cleanRow pd raw = some r := by
  simp [load_data, List.mem_filterMap]

/-- Inversion of one-row cleaning: a produced record is fully determined
by the parsed date, the parsed amount and the resolved FIPS code. -/
theorem cleanRow_some_iff (pd : String → Option GDate) (raw : RawRow) (r : CleanRow) :
    cleanRow pd raw = some r ↔
      ∃ d amt f, pd raw.giftDate = some d ∧
        parseNum (stripAmount raw.giftAmount) = some amt ∧
        state_id raw.state = some f ∧
        r = { state := raw.state, giftDate := d, giftAmount := amt,
              college := raw.college, giftAllocation := raw.giftAllocation,
              allocationSub := raw.allocationSub, year := d.year,
              yearMonth := yearMonthStr d, state_fips := zfill2 f } := by
  simp only [cleanRow, Option.bind_eq_bind, Option.bind_eq_some, Option.pure_def,
    Option.some.injEq]
  constructor
  · rintro ⟨d, hd, amt, ha, f, hf, hr⟩
    exact ⟨d, amt, f, hd, ha, hf, hr.symm⟩
  · rintro ⟨d, amt, f, hd, ha, hf, rfl⟩
    exact ⟨d, hd, amt, ha, f, hf, rfl⟩

/-- Every FIPS string in the StateReference table is a two-character
digit string. -/
theorem state_id_props (s f : String) (h : state_id s = some f) :
    f.length = 2 ∧ f.data.all Char.isDigit = true := by
  unfold state_id at h
  rcases Option.map_eq_some'.mp h with ⟨p, hp, hf⟩
  have hmem : p ∈ STATES := List.mem_of_find?_eq_some hp
  have hall : ∀ q ∈ STATES, q.2.length = 2 ∧ q.2.data.all Char.isDigit = true := by decide
  exact hf ▸ hall p hmem

/-- zfill2 pads a string of length at most two to length exactly two. -/
theorem zfill2_length (s : String) (h : s.length ≤ 2) : (zfill2 s).length = 2 := by
  unfold zfill2
  by_cases h2 : s.length ≥ 2
  · rw [if_pos h2]; omega
  · rw [if_neg h2]
    show (List.replicate (2 - s.length) '0' ++ s.data).length = 2
    rw [List.length_append, List.length_replicate]
    have hd : s.data.length = s.length := rfl
    omega

/-- zfill2 keeps an all-digit string all digits. -/
theorem zfill2_digits (s : String) (h : s.data.all Char.isDigit = true) :
    (zfill2 s).data.all Char.isDigit = true := by
  unfold zfill2
  by_cases h2 : s.length ≥ 2
  · rw [if_pos h2]; exact h
  · rw [if_neg h2]
    show (List.replicate (2 - s.length) '0' ++ s.data).all Char.isDigit = true
    rw [List.all_append, h, Bool.and_true]
    apply List.all_eq_true.mpr
    intro c hc
    rw [List.eq_of_mem_replicate hc]
    rfl

/-- A successfully parsed amount string has at most one period and a
hyphen at most as its leading character. -/
theorem parseNum_shape (t : String) (q : ℚ) (h : parseNum t = some q) :
    t.data.count '.' ≤ 1 ∧ (t.data.drop 1).count '-' = 0 := by
  unfold parseNum at h
  cases hl : t.data with
  | nil => rw [hl] at h; simp at h
  | cons c cs =>
    rw [hl] at h
    replace h : (if c = '-' then
        (if isNumBody cs = true then some (-(numValue cs)) else none)
      else
        (if isNumBody (c :: cs) = true then some (numValue (c :: cs)) else none)) = some q := h
    have hnotin : ∀ l : List Char, l.all (fun c => c.isDigit || c == '.') = true →
        l.count '-' = 0 := by
      intro l hall
      apply List.count_eq_zero.mpr
      intro hmem
      have := List.all_eq_true.mp hall _ hmem
      simp at this
    by_cases hc : c = '-'
    · rw [if_pos hc] at h
      by_cases hb : isNumBody cs = true
      · simp only [isNumBody, Bool.and_eq_true, decide_eq_true_eq] at hb
        rcases hb with ⟨⟨hall, hcount⟩, _⟩
        subst hc
        refine ⟨?_, ?_⟩
        · rw [List.count_cons]
          simpa using hcount
        · exact hnotin cs hall
      · rw [if_neg hb] at h; simp at h
    · rw [if_neg hc] at h
      by_cases hb : isNumBody (c :: cs) = true
      · simp only [isNumBody, Bool.and_eq_true, decide_eq_true_eq] at hb
        rcases hb with ⟨⟨hall, hcnt⟩, _⟩
        refine ⟨hcnt, ?_⟩
        have : (c :: cs).count '-' = 0 := hnotin _ hall
        rw [List.count_cons] at this
        simp only [List.drop_one, List.tail_cons]
        omega
      · rw [if_neg hb] at h; simp at h

/-- C1 counterexample: in the end-to-end example input the ZZ row parses
in date and amount, yet the cleaned set returned by load_data contains no
row with state ZZ - the claim that an unresolved-state record is retained
in the full cleaned set fails: app.py line 44 drops it. -/
theorem C1_counterexample :
    demoParseDate "1/3/20" = some { year := 2020, month := 1, day := 3 } ∧
    (parseNum (stripAmount "200")).isSome = true ∧
    exRows.any (fun raw => raw.state == "ZZ") = true ∧
    (load_data demoParseDate exRows).all (fun r => r.state != "ZZ") = true :=
  ⟨rfl, rfl, rfl, rfl⟩

/-- C1 amended: a record whose donorStateCode does not resolve against the
StateReference table is dropped from the cleaned set entirely, so every
record load_data returns has a resolvable state code. -/
theorem C1_amended (pd : String → Option GDate) (rows : List RawRow) :
    ∀ r ∈ load_data pd rows, (state_id r.state).isSome = true := by
  intro r hr
  rcases (mem_load_data pd rows r).mp hr with ⟨raw, _, hcr⟩
  rcases (cleanRow_some_iff pd raw r).mp hcr with ⟨d, amt, f, _, _, hf, rfl⟩
  simp [hf]

/-- C1 amended witness at the example input and its California row. -/
theorem C1_amended_witness : (state_id caClean.state).isSome = true :=
  C1_amended demoParseDate exRows caClean
    (by show caClean ∈ exClean; rw [exClean_eq]; exact List.mem_singleton_self caClean)

/-- C2 counterexample: filtering the example cleaned set by the College
value Business, which occurs nowhere in the data, returns the full
cleaned set, not an empty one - the guard on app.py line 71 skips the
constraint instead of applying it. -/
theorem C2_counterexample :
    df_filt exClean "Business" "All" = exClean ∧ exClean ≠ [] :=
  ⟨rfl, by rw [exClean_eq]; exact List.cons_ne_nil caClean []⟩

/-- C2 amended: a filter whose selected value does not occur in the
corresponding categorical column is ignored, so with every other
constraint inactive the full record set is returned unchanged, and no
error is raised. -/
theorem C2_amended (df : List CleanRow) (colPick motPick : String)
    (hc : (colleges df).contains colPick = false)
    (hm : (allocations df).contains motPick = false) :
    df_filt df colPick motPick = df := by
  unfold df_filt
  apply List.filter_eq_self.mpr
  intro r _
  unfold rowMask
  rw [hc, hm]
  simp

/-- C2 amended witness: stale College and Gift Allocation picks on the
example cleaned set leave it unchanged. -/
theorem C2_amended_witness : df_filt exClean "Business" "Stale" = exClean :=
  C2_amended exClean "Business" "Stale" rfl rfl

/-- C3 counterexample: state_totals pads against the topology identifier
set, not the StateReference table; with topology input consisting only of
the identifier 11 and an empty filtered set, the aggregate has no row for
the StateReference identifier 06 (California), so it does not contain one
row per StateReference entry. -/
theorem C3_counterexample :
    state_id "CA" = some "06" ∧
    (state_totals (topo_ids ["11"]) []).all (fun p => p.1 != "06") = true ∧
    (state_totals (topo_ids ["11"]) []).length = 1 :=
  ⟨rfl, rfl, rfl⟩

/-- C3 amended: for every topology identifier input and every filtered
record set (however sparse, including empty), the geography aggregate
contains exactly one row per identifier in the topology identifier set,
and the summed gift amount is exactly 0 for every identifier with no
matching donation rows. -/
theorem C3_amended (featureIds : List String) (rows : List CleanRow) :
    (state_totals (topo_ids featureIds) rows).map Prod.fst = topo_ids featureIds ∧
    (topo_ids featureIds).Nodup ∧
    ∀ f, f ∈ topo_ids featureIds → rows.all (fun r => r.state_fips != f) = true →
      (f, (0 : ℚ)) ∈ state_totals (topo_ids featureIds) rows := by
  refine ⟨?_, List.nodup_dedup _, ?_⟩
  · unfold state_totals
    rw [List.map_map]
    exact List.map_id _
  · intro f hf hnone
    have hfilter : rows.filter (fun r => r.state_fips == f) = [] := by
      apply List.filter_eq_nil_iff.mpr
      intro r hr
      have := List.all_eq_true.mp hnone r hr
      simpa using this
    have hsum : sumForFips rows f = 0 := by
      unfold sumForFips
      rw [hfilter]
      rfl
    have hmem : (f, sumForFips rows f) ∈ state_totals (topo_ids featureIds) rows :=
      List.mem_map_of_mem _ hf
    rwa [hsum] at hmem

/-- C3 amended witness: with the single topology identifier 06 and the
empty filtered set, the aggregate carries the zero row for 06. -/
theorem C3_amended_witness :
    (("06" : String), (0 : ℚ)) ∈ state_totals (topo_ids ["06"]) [] :=
  (C3_amended ["06"] []).2.2 "06" (by decide) rfl

/-- C4: a raw row whose date does not parse or whose amount fails numeric
coercion after stripping is cleaned to nothing and contributes no record
to the cleaned set, wherever it occurs in the input. -/
theorem C4_confirmed (pd : String → Option GDate) (r : RawRow)
    (h : pd r.giftDate = none ∨ parseNum (stripAmount r.giftAmount) = none) :
    cleanRow pd r = none ∧
    ∀ pre post : List RawRow,
      load_data pd (pre ++ r :: post) = load_data pd (pre ++ post) := by
  have hc : cleanRow pd r = none := by
    rcases h with h | h
    · simp [cleanRow, h]
    · cases hd : pd r.giftDate <;> simp [cleanRow, hd, h]
  refine ⟨hc, fun pre post => ?_⟩
  simp [load_data, List.filterMap_append, List.filterMap_cons, hc]

/-- C4 witness: the row with amount N/A cleans to nothing. -/
theorem C4_witness : cleanRow demoParseDate badRow = none :=
  (C4_confirmed demoParseDate badRow (Or.inr rfl)).1

/-- C5: amount cleaning keeps exactly the digit, hyphen and period
characters of the raw string; the example 1,200.50 with a dollar sign
parses to the rational 1200.50 and the example N/A is rejected; and any
string that parses successfully had, after stripping, at most one period
and a hyphen at most in leading position - the single-leading-minus,
single-decimal-point shape is enforced by the numeric coercion. -/
theorem C5_confirmed :
    parseNum (stripAmount "$1,200.50") = some (1200.5 : ℚ) ∧
    parseNum (stripAmount "N/A") = none ∧
    ∀ s : String,
      (stripAmount s).data = s.data.filter (fun c => c.isDigit || c == '-' || c == '.') ∧
      ∀ q, parseNum (stripAmount s) = some q →
        (stripAmount s).data.count '.' ≤ 1 ∧
        ((stripAmount s).data.drop 1).count '-' = 0 := by
  refine ⟨?_, rfl, fun s => ⟨rfl, fun q hq => parseNum_shape _ q hq⟩⟩
  have h : parseNum (stripAmount "$1,200.50") =
      some (((1200 : ℕ) : ℚ) + ((50 : ℕ) : ℚ) / ((10 : ℚ) ^ (2 : ℕ))) := rfl
  rw [h]
  norm_num

/-- C5 witness: the parsed example string has at most one period after
stripping. -/
theorem C5_witness : (stripAmount "$1,200.50").data.count '.' ≤ 1 :=
  ((C5_confirmed.2.2 "$1,200.50").2 (1200.5 : ℚ) C5_confirmed.1).1

/-- C6: filtering with both selections on the All sentinel is the
identity on the cleaned record set. -/
theorem C6_confirmed (df : List CleanRow) : df_filt df "All" "All" = df := by
  unfold df_filt
  apply List.filter_eq_self.mpr
  intro r _
  unfold rowMask
  simp

/-- C7: every state_fips value load_data produces is a zero-padded
two-character digit string, and every topology identifier, provided the
raw feature id renders in at most two characters, is likewise a
two-character string - the two key spaces share one canonical string
format. -/
theorem C7_confirmed (pd : String → Option GDate) (rows : List RawRow)
    (featureIds : List String) (hids : ∀ s ∈ featureIds, s.length ≤ 2) :
    (∀ r ∈ load_data pd rows,
       r.state_fips.length = 2 ∧ r.state_fips.data.all Char.isDigit = true) ∧
    (∀ t ∈ topo_ids featureIds, t.length = 2) := by
  constructor
  · intro r hr
    rcases (mem_load_data pd rows r).mp hr with ⟨raw, _, hcr⟩
    rcases (cleanRow_some_iff pd raw r).mp hcr with ⟨d, amt, f, _, _, hf, rfl⟩
    rcases state_id_props raw.state f hf with ⟨h1, h2⟩
    exact ⟨zfill2_length f (by omega), zfill2_digits f h2⟩
  · intro t ht
    have ht' : t ∈ featureIds.map zfill2 := List.mem_dedup.mp ht
    rcases List.mem_map.mp ht' with ⟨s, hs, rfl⟩
    exact zfill2_length s (hids s hs)

/-- C7 witness: the topology identifier built from the one-character
feature id 6 is two characters long. -/
theorem C7_witness : (zfill2 "6").length = 2 :=
  (C7_confirmed demoParseDate exRows ["6"] (by decide)).2 (zfill2 "6") (by decide)

/-- C8: every surviving row's Year equals the year of its parsed gift
date and its YearMonth is the year, a hyphen, and the zero-padded
two-digit month of that date. -/
theorem C8_confirmed (pd : String → Option GDate) (rows : List RawRow) :
    ∀ r ∈ load_data pd rows,
      r.year = r.giftDate.year ∧
      r.yearMonth = toString r.giftDate.year ++ "-" ++ zfill2 (toString r.giftDate.month) := by
  intro r hr
  rcases (mem_load_data pd rows r).mp hr with ⟨raw, _, hcr⟩
  rcases (cleanRow_some_iff pd raw r).mp hcr with ⟨d, amt, f, _, _, _, rfl⟩
  exact ⟨rfl, rfl⟩

/-- C8 witness at the cleaned California example row. -/
theorem C8_witness :
    caClean.year = caClean.giftDate.year ∧
    caClean.yearMonth =
      toString caClean.giftDate.year ++ "-" ++ zfill2 (toString caClean.giftDate.month) :=
  C8_confirmed demoParseDate exRows caClean
    (by show caClean ∈ exClean; rw [exClean_eq]; exact List.mem_singleton_self caClean)

/-- C9: the filter and geography aggregate are deterministic - two runs
over equal cleaned data, equal selections and equal topology identifiers
produce equal filtered sets and equal aggregates. -/
theorem C9_confirmed (df df' : List CleanRow) (c c' m m' : String)
    (topo topo' : List String)
    (hdf : df = df') (hc : c = c') (hm : m = m') (ht : topo = topo') :
    df_filt df c m = df_filt df' c' m' ∧
    state_totals topo (df_filt df c m) = state_totals topo' (df_filt df' c' m') := by
  subst hdf; subst hc; subst hm; subst ht
  exact ⟨rfl, rfl⟩

/-- C9 witness: two identical runs on the example data agree. -/
theorem C9_witness :
    df_filt exClean "All" "All" = df_filt exClean "All" "All" ∧
    state_totals (topo_ids ["06"]) (df_filt exClean "All" "All") =
      state_totals (topo_ids ["06"]) (df_filt exClean "All" "All") :=
  C9_confirmed exClean exClean "All" "All" "All" "All"
    (topo_ids ["06"]) (topo_ids ["06"]) rfl rfl rfl rfl

/-- C10: every filtered row is a member of the cleaned set, originates
from some raw input row via cleaning (the mask never creates or modifies
rows), and carries a resolvable state code; a parsed date and a numeric
amount are carried by construction of CleanRow. -/
theorem C10_confirmed (pd : String → Option GDate) (rows : List RawRow) (c m : String) :
    ∀ r ∈ df_filt (load_data pd rows) c m,
      r ∈ load_data pd rows ∧
      (∃ raw ∈ rows, cleanRow pd raw = some r) ∧
      (state_id r.state).isSome = true := by
  intro r hr
  have hmem : r ∈ load_data pd rows := List.mem_of_mem_filter hr
  rcases (mem_load_data pd rows r).mp hmem with ⟨raw, hraw, hcr⟩
  refine ⟨hmem, ⟨raw, hraw, hcr⟩, ?_⟩
  rcases (cleanRow_some_iff pd raw r).mp hcr with ⟨d, amt, f, _, _, hf, rfl⟩
  simp [hf]

/-- C10 witness at the example data with inactive filters. -/
theorem C10_witness :
    caClean ∈ load_data demoParseDate exRows ∧
    (∃ raw ∈ exRows, cleanRow demoParseDate raw = some caClean) ∧
    (state_id caClean.state).isSome = true :=
  C10_confirmed demoParseDate exRows "All" "All" caClean
    (by rw [(rfl : df_filt (load_data demoParseDate exRows) "All" "All" = [caClean])]
        exact List.mem_singleton_self caClean)
